import Mathlib

/-!
Formal model of the BugBattle simulation core (`shared.py` and `framework.py`).

Creatures are embedded as records; the Python object graph's mutation is
rendered as explicit state passing.  Method overriding by the special
occupants `Soil`, `Plant` and `PoisonDrop` is rendered by dispatching on a
`Kind` tag, exactly mirroring which subclass overrides which base method:

  * `Soil` overrides `f_fights_back` (False), `f_expend`, `f_feed`, `f_die`
    (all no-ops);
  * `Plant` overrides `f_fights_back` (False);
  * `PoisonDrop` overrides `f_expend` (no-op) and `f_apparent_type`
    (always `Soil`);
  * competitor creatures use the base implementations; the base
    `f_fights_back` returns True and a competitor may in principle override
    it, so the tag carries that Bool.

Python integers are embedded as `Int` (strengths may go negative
transiently inside `f_expend`, and `f_feed` accepts negative amounts).
Organ methods that call back into the `World` (`Cilia.move_in_direction`,
`Propagator.give_birth`) return an `Option OrganEffect` describing the
single world call they would make; `apply_organ_effect` performs that call
on a `World`, so `none` means the grid is left untouched.
-/

namespace BugBattle

/-- Creature.MAX_STRENGTH in shared.py. -/
def MAX_STRENGTH : Int := 2000

/-- Creature.MAX_ORGANS in shared.py. -/
def MAX_ORGANS : Nat := 10

/-- PoisonGland.__RESERVOIR_CAPACITY in shared.py. -/
def RESERVOIR_CAPACITY : Int := 1000

/-- PoisonGland.__DAMAGE_MULTIPLIER in shared.py. -/
def DAMAGE_MULTIPLIER : Int := 4

/-- The concrete Organ subclasses of shared.py. -/
inductive OrganKind
  | cilia
  | photoGland
  | propagator
  | cloaking
  | energySensor
  | creatureTypeSensor
  | lifeSensor
  | poisonSensor
  | poisonGland
  | spikes
  deriving DecidableEq

/-- F_CREATION_COST of each Organ subclass. -/
def creation_cost : OrganKind → Int
  | .cilia => 100
  | .photoGland => 250
  | .propagator => 50
  | .cloaking => 500
  | .energySensor => 100
  | .creatureTypeSensor => 100
  | .lifeSensor => 50
  | .poisonSensor => 50
  | .poisonGland => 500
  | .spikes => 100

/-- F_USE_COST of each Organ subclass.  In the source, PhotoGland,
PoisonGland and Spikes have F_USE_COST = None and no code path ever
charges them a use cost; the value 0 given here for those kinds is never
read by any modelled operation. -/
def use_cost : OrganKind → Int
  | .cilia => 20
  | .propagator => 100
  | .cloaking => 100
  | .energySensor => 2
  | .creatureTypeSensor => 2
  | .lifeSensor => 1
  | .poisonSensor => 1
  | _ => 0

/-- Which concrete Creature class an occupant is, with the three special
framework occupants distinguished from competitor creatures.  The Bool on
`competitor` is the value of its (statically dispatched) `f_fights_back`;
the base class returns True. -/
inductive Kind
  | soil
  | plant
  | poisonDrop
  | competitor (fightsBack : Bool)
  deriving DecidableEq

/-- State of one Organ instance.  `reservoirVolume` is meaningful only for
`poisonGland` (PoisonGland.__reservoir_volume, initialised to 0); for
every other kind it is 0 and never read. -/
structure Organ where
  kind : OrganKind
  usesThisTurn : Nat
  reservoirVolume : Int
  deriving DecidableEq

/-- State of one Creature instance.  `id` stands for Python object
identity (the grid and `location_of` compare occupants by identity).
`location` is Creature.__location: `none` until first placed. -/
structure Creature where
  id : Nat
  kind : Kind
  alive : Bool
  strength : Int
  organs : List Organ
  cloaked : Bool
  poisonous : Bool
  location : Option Nat
  deriving DecidableEq

/-- Creature.f_fights_back and its overrides (Soil and Plant return
False; PoisonDrop inherits the base True). -/
def f_fights_back (c : Creature) : Bool :=
  match c.kind with
  | .soil => false
  | .plant => false
  | .poisonDrop => true
  | .competitor fb => fb

/-- Creature.f_die; Soil overrides it to a no-op.  The species
destroyed() hook only adjusts the class-level instance counter, which is
modelled separately (see `check_win`). -/
def f_die (c : Creature) : Creature :=
  if c.kind = Kind.soil then c
  else { c with strength := 0, alive := false }

/-- Creature.f_expend; Soil and PoisonDrop override it to a no-op. -/
def f_expend (c : Creature) (e : Int) : Creature :=
  if c.kind = Kind.soil ∨ c.kind = Kind.poisonDrop then c
  else
    let c1 : Creature := { c with strength := c.strength - e }
    if c1.strength < 0 then f_die c1 else c1

/-- Creature.f_feed; Soil overrides it to a no-op. -/
def f_feed (c : Creature) (e : Int) : Creature :=
  if c.kind = Kind.soil then c
  else if c.alive then { c with strength := c.strength + e } else c

/-- Creature.f_cap_strength. -/
def f_cap_strength (c : Creature) : Creature :=
  { c with strength := min c.strength MAX_STRENGTH }

/-- Creature.f_cloak. -/
def f_cloak (c : Creature) : Creature :=
  { c with cloaked := true }

/-- Organ.f_defensive_damage and its overrides (PoisonGland, Spikes). -/
def Organ.f_defensive_damage (o : Organ) : Int :=
  match o.kind with
  | .poisonGland => o.reservoirVolume * DAMAGE_MULTIPLIER
  | .spikes => 200
  | _ => 0

/-- Creature.f_defensive_damage: sums the defensive damage over the
creature's organs, in list order, starting from 0. -/
def Creature.f_defensive_damage (c : Creature) : Int :=
  c.organs.foldl (fun damage o => damage + o.f_defensive_damage) 0

/-- Creature.f_add_organ: charge the creation cost first (possibly
killing the host), then attach the organ if a slot is free. -/
def f_add_organ (c : Creature) (o : Organ) : Creature :=
  let c1 := f_expend c (creation_cost o.kind)
  if c1.organs.length < MAX_ORGANS then { c1 with organs := c1.organs ++ [o] }
  else c1

/-- Creature.f_apparent_strength. -/
def f_apparent_strength (c : Creature) : Int :=
  if c.cloaked then 0 else c.strength

/-- Creature.f_apparent_type; PoisonDrop overrides it to return Soil
unconditionally. -/
def f_apparent_type (c : Creature) : Kind :=
  if c.kind = Kind.poisonDrop then Kind.soil
  else if c.cloaked then Kind.soil else c.kind

/-- Creature.f_appears_poisonous. -/
def f_appears_poisonous (c : Creature) : Bool :=
  c.poisonous && !c.cloaked

/-- Result of Creature.f_attack: the post-fight states of both parties
and which one the method returned as the winner. -/
structure AttackResult where
  attacker : Creature
  defender : Creature
  attackerWins : Bool
  deriving DecidableEq

/-- Creature.__defender_wins: feed the defender the attacker's strength
minus the attacker's defensive damage, then kill the attacker. -/
def defender_wins_fight (a d : Creature) : AttackResult :=
  let d1 := f_feed d (a.strength - a.f_defensive_damage)
  let a1 := f_die a
  { attacker := a1, defender := d1, attackerWins := false }

/-- Creature.__attacker_wins: feed the attacker the defender's strength
minus the defender's defensive damage, then kill the defender. -/
def attacker_wins_fight (a d : Creature) : AttackResult :=
  let a1 := f_feed a (d.strength - d.f_defensive_damage)
  let d1 := f_die d
  { attacker := a1, defender := d1, attackerWins := true }

/-- Creature.f_attack. -/
def f_attack (a d : Creature) : AttackResult :=
  if !(f_fights_back d) then attacker_wins_fight a d
  else if !(f_fights_back a) then defender_wins_fight a d
  else if a.strength > d.strength then attacker_wins_fight a d
  else defender_wins_fight a d

/-- The 8 bearings of the Direction enum. -/
inductive Direction
  | north | northEast | east | southEast | south | southWest | west | northWest
  deriving DecidableEq

/-- Direction.dx. -/
def Direction.dx : Direction → Int
  | .north => 0
  | .northEast => 1
  | .east => 1
  | .southEast => 1
  | .south => 0
  | .southWest => -1
  | .west => -1
  | .northWest => -1

/-- Direction.dy. -/
def Direction.dy : Direction → Int
  | .north => -1
  | .northEast => -1
  | .east => 0
  | .southEast => 1
  | .south => 1
  | .southWest => 1
  | .west => 0
  | .northWest => -1

/-- The single callback into the World that Cilia.move_in_direction or
Propagator.give_birth performs when the action goes ahead.  `dropChild`
records the initial energy the newborn is fed before being dropped. -/
inductive OrganEffect
  | moveHost (bearing : Direction)
  | dropChild (initialEnergy : Int) (bearing : Direction)
  deriving DecidableEq

/-- Organ.f_host_would_be_alive_after_use: charge the use cost to the
host (a committed state change), then report whether the host is still
alive.  Returns the flag together with the charged host. -/
def f_host_would_be_alive_after_use (o : Organ) (h : Creature) : Bool × Creature :=
  let h1 := f_expend h (use_cost o.kind)
  (h1.alive, h1)

/-- Cilia.move_in_direction.  The Python condition
`f_host_would_be_alive_after_use() and f_uses_this_turn() == 0` always
performs the charge (left operand) and moves only when the host survived
it and the organ is unused this turn; on a move the organ records one use
(f_used_once) and the world is asked to move the host. -/
def move_in_direction (o : Organ) (h : Creature) (bearing : Direction) :
    Organ × Creature × Option OrganEffect :=
  let r := f_host_would_be_alive_after_use o h
  if r.1 && o.usesThisTurn == 0 then
    ({ o with usesThisTurn := o.usesThisTurn + 1 }, r.2, some (.moveHost bearing))
  else
    (o, r.2, none)

/-- Propagator.give_birth: charge the initial-energy stake, then run the
committing use-cost check; only if the host survived is a child made,
fed the stake and dropped beside the host. -/
def give_birth (o : Organ) (h : Creature) (initialEnergy : Int) (direction : Direction) :
    Creature × Option OrganEffect :=
  let h1 := f_expend h initialEnergy
  let r := f_host_would_be_alive_after_use o h1
  if r.1 then (r.2, some (.dropChild initialEnergy direction)) else (r.2, none)

/-- Cloaking.cloak. -/
def cloak (o : Organ) (h : Creature) : Creature :=
  let r := f_host_would_be_alive_after_use o h
  if r.1 then f_cloak r.2 else r.2

/-- The value a Sensor subclass produces, tagged by capability. -/
inductive SensorValue
  | energy (v : Int)
  | creatureType (t : Kind)
  | life (b : Bool)
  | poison (b : Bool)
  deriving DecidableEq

/-- sensor_value of each Sensor subclass.  The catch-all arm is
unreachable: `sense` exists only on the four Sensor subclasses. -/
def sensor_value (k : OrganKind) (target : Creature) : SensorValue :=
  match k with
  | .energySensor => .energy (f_apparent_strength target)
  | .creatureTypeSensor => .creatureType (f_apparent_type target)
  | .lifeSensor => .life (f_apparent_type target != Kind.soil)
  | .poisonSensor => .poison (f_appears_poisonous target)
  | _ => .energy 0

/-- F_DEFAULT_VALUE of each Sensor subclass.  The catch-all arm is
unreachable, as in `sensor_value`. -/
def default_value (k : OrganKind) : SensorValue :=
  match k with
  | .energySensor => .energy 0
  | .creatureTypeSensor => .creatureType Kind.soil
  | .lifeSensor => .life false
  | .poisonSensor => .poison false
  | _ => .energy 0

/-- Sensor.sense.  `target` is the creature the world would report at the
offset (World.creature_at_offset_from, a read-only lookup); the final
Bool records whether the world was actually consulted, i.e. whether the
host survived the committed use-cost charge.  On a dead host the
capability-specific default is returned instead. -/
def sense (o : Organ) (h : Creature) (target : Creature) :
    Creature × SensorValue × Bool :=
  let r := f_host_would_be_alive_after_use o h
  if r.1 then (r.2, sensor_value o.kind target, true)
  else (r.2, default_value o.kind, false)

/-- PoisonGland.add_poison: nothing happens for a non-positive request;
otherwise the request is clipped to the host's strength, that clipped
amount is charged to the host, and only then is the reservoir topped up,
clipped to capacity. -/
def add_poison (g : Organ) (h : Creature) (toAdd : Int) : Organ × Creature :=
  if toAdd ≤ 0 then (g, h)
  else
    let t := min h.strength toAdd
    let h1 := f_expend h t
    ({ g with reservoirVolume := min RESERVOIR_CAPACITY (g.reservoirVolume + t) }, h1)

/-- A fresh Soil() instance: alive, strength 0, no organs, not yet
placed.  `id` models the fresh object identity. -/
def mkSoil (id : Nat) : Creature :=
  { id := id, kind := Kind.soil, alive := true, strength := 0, organs := [],
    cloaked := false, poisonous := false, location := none }

/-- The exceptions World.location_of can raise: ValueError (raised
explicitly on an identity mismatch — the only one callers catch),
IndexError (last recorded index out of range) and TypeError (creature
never placed, location unset).  The latter two never occur for creatures
that were placed in a well-formed world. -/
inductive LocateError
  | valueError
  | indexError
  | typeError
  deriving DecidableEq

/-- The World: a flat list of width × width occupants.  `nextId` supplies
the identity of the next freshly constructed occupant. -/
structure World where
  width : Nat
  locations : List Creature
  nextId : Nat
  deriving DecidableEq

/-- World.place: store the creature at the destination index, recording
that index in the creature. -/
def World.place (w : World) (c : Creature) (dest : Nat) : World :=
  { w with locations := w.locations.set dest { c with location := some dest } }

/-- World.location_of: re-find the creature at its last recorded index,
raising ValueError if that cell now holds someone else. -/
def World.location_of (w : World) (c : Creature) : Except LocateError Nat :=
  match c.location with
  | none => .error .typeError
  | some loc =>
    match w.locations.get? loc with
    | none => .error .indexError
    | some occ => if occ.id == c.id then .ok loc else .error .valueError

/-- World._location_offset: torus offset arithmetic.  Python `%` on ints
agrees with `Int.emod` for a positive modulus. -/
def World.location_offset (w : World) (start : Nat) (bearing : Direction) : Nat :=
  let newX := (((start % w.width : Nat) : Int) + bearing.dx) % (w.width : Int)
  let newY := (((start / w.width : Nat) : Int) + bearing.dy) % (w.width : Int)
  (newY * (w.width : Int) + newX).toNat

/-- World.launch_attack: fight the occupant of the offset cell and place
the winner there.  The `getD` default is unreachable: the offset is
always in range when `locations` has length width² with width > 0. -/
def World.launch_attack (w : World) (start : Nat) (bearing : Direction)
    (attacker : Creature) : World :=
  let battleground := w.location_offset start bearing
  let r := f_attack attacker (w.locations.getD battleground (mkSoil 0))
  w.place (if r.attackerWins then r.attacker else r.defender) battleground

/-- World.move: locate the attacker (a ValueError is swallowed: the
creature was already consumed this turn, a silent no-op), vacate its cell
to fresh soil, then resolve combat at the destination.  An uncaught
exception is modelled as `Except.error`. -/
def World.move (w : World) (c : Creature) (bearing : Direction) :
    Except LocateError World :=
  match w.location_of c with
  | .error .valueError => .ok w
  | .error e => .error e
  | .ok start =>
    let w1 := { w with nextId := w.nextId + 1 }
    let w2 := w1.place (mkSoil w.nextId) start
    .ok (w2.launch_attack start bearing c)

/-- World.drop_beside: locate the origin (a ValueError is swallowed) and
resolve combat for the dropped creature at the offset cell, without
vacating the origin's own cell. -/
def World.drop_beside (w : World) (origin : Creature) (dropped : Creature)
    (bearing : Direction) : Except LocateError World :=
  match w.location_of origin with
  | .error .valueError => .ok w
  | .error e => .error e
  | .ok start => .ok (w.launch_attack start bearing dropped)

/-- Performs the world callback an organ operation requested, if any:
`none` leaves the world untouched; `moveHost` is World.move on the host;
`dropChild` feeds the freshly made child its stake (Propagator.give_birth
calls child.f_feed(initial_energy)) and drops it beside the host. -/
def apply_organ_effect (w : World) (host : Creature) (child : Creature) :
    Option OrganEffect → Except LocateError World
  | none => .ok w
  | some (.moveHost b) => w.move host b
  | some (.dropChild initialEnergy b) => w.drop_beside host (f_feed child initialEnergy) b

/-- The loop of Simulation.check_win: how many competitor classes have a
nonzero instance count. -/
def live_competitors (counts : List Int) : Nat :=
  counts.countP (fun n => n != 0)

/-- Simulation.check_win as a function of the per-species instance counts
and the current game_over flag: sets the flag when exactly one species
is alive, otherwise leaves it as it was. -/
def check_win (counts : List Int) (gameOver : Bool) : Bool :=
  if live_competitors counts == 1 then true else gameOver

/-! Concrete instances used to evaluate the theorems below on explicit
inputs. -/

/-- A plain competitor with strength 100 and no organs. -/
def hunterA : Creature :=
  { id := 1, kind := Kind.competitor true, alive := true, strength := 100,
    organs := [], cloaked := false, poisonous := false, location := none }

/-- A competitor with strength 50 carrying Spikes (defensive damage 200). -/
def preyD : Creature :=
  { id := 2, kind := Kind.competitor true, alive := true, strength := 50,
    organs := [{ kind := OrganKind.spikes, usesThisTurn := 0, reservoirVolume := 0 }],
    cloaked := false, poisonous := false, location := none }

/-- A competitor with strength 50 and no organs. -/
def attacker50 : Creature :=
  { id := 3, kind := Kind.competitor true, alive := true, strength := 50,
    organs := [], cloaked := false, poisonous := false, location := none }

/-- A poison drop of volume 100: strength 1 (fed 1 + volume, then volume
expended via the base f_expend during construction), poisonous, holding a
gland with reservoir volume 100 (defensive damage 400). -/
def drop100 : Creature :=
  { id := 4, kind := Kind.poisonDrop, alive := true, strength := 1,
    organs := [{ kind := OrganKind.poisonGland, usesThisTurn := 0, reservoirVolume := 100 }],
    cloaked := false, poisonous := true, location := none }

/-- A living competitor with strength 40 and no organs (the C6 scenario). -/
def weakCreator : Creature :=
  { id := 5, kind := Kind.competitor true, alive := true, strength := 40,
    organs := [], cloaked := false, poisonous := false, location := none }

/-- A freshly constructed Cilia organ (creation cost 100, unused). -/
def ciliaNew : Organ :=
  { kind := OrganKind.cilia, usesThisTurn := 0, reservoirVolume := 0 }

/-- A Cilia organ already used once this turn. -/
def ciliaUsed : Organ :=
  { kind := OrganKind.cilia, usesThisTurn := 1, reservoirVolume := 0 }

/-- An EnergySensor organ. -/
def energySensO : Organ :=
  { kind := OrganKind.energySensor, usesThisTurn := 0, reservoirVolume := 0 }

/-- A Propagator organ. -/
def propO : Organ :=
  { kind := OrganKind.propagator, usesThisTurn := 0, reservoirVolume := 0 }

/-- A Cloaking organ. -/
def cloakO : Organ :=
  { kind := OrganKind.cloaking, usesThisTurn := 0, reservoirVolume := 0 }

/-- A PoisonGland whose reservoir stands at volume 900 (the C5 scenario). -/
def gland900 : Organ :=
  { kind := OrganKind.poisonGland, usesThisTurn := 0, reservoirVolume := 900 }

/-- A living host of the C5 scenario with strength exactly 500, carrying
`gland900` in its organ list (the gland state passed to `add_poison` is
the organ's own; the list entry is its pre-call snapshot). -/
def glandHost : Creature :=
  { id := 6, kind := Kind.competitor true, alive := true, strength := 500,
    organs := [gland900], cloaked := false, poisonous := true, location := none }

/-- A competitor too weak (strength 1) to survive any use-cost charge. -/
def frailHost : Creature :=
  { id := 7, kind := Kind.competitor true, alive := true, strength := 1,
    organs := [], cloaked := false, poisonous := false, location := none }

/-- A competitor with ample strength 100 used for positive witnesses. -/
def richHost : Creature :=
  { id := 8, kind := Kind.competitor true, alive := true, strength := 100,
    organs := [], cloaked := false, poisonous := false, location := none }

/-- A 1 × 1 world holding a single soil occupant of identity 0. -/
def world1 : World :=
  { width := 1, locations := [{ mkSoil 0 with location := some 0 }], nextId := 1 }

/-- A creature whose last recorded index (0) is a valid cell of `world1`
that no longer holds it: the grid occupant there has identity 0, not 9. -/
def ghost : Creature :=
  { id := 9, kind := Kind.competitor true, alive := true, strength := 100,
    organs := [], cloaked := false, poisonous := false, location := some 0 }

/-! Helper lemmas about the energy economy, shared by several claim
theorems. -/

/-- f_expend on a creature that does not override it, when the balance
stays nonnegative: strength drops by exactly the amount. -/
theorem f_expend_eq_sub (c : Creature) (e : Int)
    (hk : ¬(c.kind = Kind.soil ∨ c.kind = Kind.poisonDrop)) (hs : e ≤ c.strength) :
    f_expend c e = { c with strength := c.strength - e } := by
  simp only [f_expend, if_neg hk]
  rw [if_neg (by simp; omega)]

/-- f_expend on a creature that does not override it, when the charge
exceeds the strength: the creature dies (strength zeroed, alive cleared). -/
theorem f_expend_kills (c : Creature) (e : Int)
    (hk : ¬(c.kind = Kind.soil ∨ c.kind = Kind.poisonDrop)) (hs : c.strength < e) :
    f_expend c e = { c with strength := 0, alive := false } := by
  have hns : ¬(c.kind = Kind.soil) := fun h => hk (Or.inl h)
  simp only [f_expend, if_neg hk]
  rw [if_pos (by simp; omega)]
  simp [f_die, hns]

/-- f_feed on a living creature that does not override it adds the
amount to strength and changes nothing else. -/
theorem f_feed_alive_eq (c : Creature) (e : Int)
    (hk : c.kind ≠ Kind.soil) (ha : c.alive = true) :
    f_feed c e = { c with strength := c.strength + e } := by
  simp [f_feed, hk, ha]

/-- f_feed on a dead creature is a no-op. -/
theorem f_feed_dead_eq (c : Creature) (e : Int) (ha : c.alive = false) :
    f_feed c e = c := by
  by_cases hk : c.kind = Kind.soil <;> simp [f_feed, hk, ha]

/-- f_die on a creature that does not override it. -/
theorem f_die_eq (c : Creature) (hk : c.kind ≠ Kind.soil) :
    f_die c = { c with strength := 0, alive := false } := by
  simp [f_die, hk]

/-- f_attack always returns the result of one of the two outcome
helpers. -/
theorem f_attack_cases (a d : Creature) :
    f_attack a d = attacker_wins_fight a d ∨ f_attack a d = defender_wins_fight a d := by
  unfold f_attack
  split_ifs <;> simp

/-- Claim C2: in f_attack, a non-fighting defender loses unconditionally;
otherwise a non-fighting attacker loses unconditionally; otherwise the
attacker wins exactly on strictly greater strength, so with both parties
fighting back an exact tie goes to the defender. -/
theorem attack_winner_rule (a d : Creature) :
    ((f_attack a d).attackerWins = true ↔
      (f_fights_back d = false ∨ (f_fights_back a = true ∧ d.strength < a.strength))) ∧
    (f_fights_back d = true → f_fights_back a = true → a.strength = d.strength →
      (f_attack a d).attackerWins = false) := by
  unfold f_attack
  by_cases hd : f_fights_back d = true <;> by_cases ha : f_fights_back a = true <;>
    by_cases hs : a.strength > d.strength <;>
    simp [hd, ha, hs, attacker_wins_fight, defender_wins_fight]
  all_goals omega

/-- Claim C2 witness: two fighting competitors of equal strength 100 —
the defender wins the tie. -/
theorem attack_winner_rule_witness :
    (f_attack richHost { richHost with id := 99 }).attackerWins = false :=
  (attack_winner_rule richHost { richHost with id := 99 }).2 (by decide) (by decide) (by decide)

/-- Claim C3 (amended): when both parties are living, the winner of
f_attack — provided it is not Soil, whose f_feed is a no-op — ends with
exactly its pre-fight strength plus the loser's pre-fight strength minus
the loser's total defensive damage (no floor is applied), and the loser
is killed provided it is not Soil, whose f_die is a no-op. -/
theorem attack_conservation (a d : Creature)
    (ha : a.alive = true) (hd : d.alive = true) :
    ((f_attack a d).attackerWins = true → a.kind ≠ Kind.soil →
      (f_attack a d).attacker.strength
          = a.strength + d.strength - d.f_defensive_damage ∧
      (d.kind ≠ Kind.soil → (f_attack a d).defender.alive = false)) ∧
    ((f_attack a d).attackerWins = false → d.kind ≠ Kind.soil →
      (f_attack a d).defender.strength
          = d.strength + a.strength - a.f_defensive_damage ∧
      (a.kind ≠ Kind.soil → (f_attack a d).attacker.alive = false)) := by
  rcases f_attack_cases a d with h | h <;> (rw [h]; constructor)
  · intro _ hka
    refine ⟨?_, ?_⟩
    · simp only [attacker_wins_fight]
      rw [f_feed_alive_eq a _ hka ha]
      simp
      omega
    · intro hkd
      simp only [attacker_wins_fight]
      rw [f_die_eq d hkd]
  · intro hw
    simp [attacker_wins_fight] at hw
  · intro hw
    simp [defender_wins_fight] at hw
  · intro _ hkd
    refine ⟨?_, ?_⟩
    · simp only [defender_wins_fight]
      rw [f_feed_alive_eq d _ hkd hd]
      simp
      omega
    · intro hka
      simp only [defender_wins_fight]
      rw [f_die_eq a hka]

/-- Claim C3 counterexample: a living competitor attacking bare soil wins
the fight, yet the loser (the soil) is not killed — Soil.f_die is a no-op
and its alive flag stays true. -/
theorem attack_soil_loser_not_killed_cex :
    (f_attack hunterA (mkSoil 0)).attackerWins = true ∧
    (f_attack hunterA (mkSoil 0)).defender.alive = true := by decide

/-- Claim C3 witness: a strength-100 competitor beats a fighting
strength-50 competitor carrying Spikes and ends at 100 + 50 − 200 = −50;
the loser is killed. -/
theorem attack_conservation_witness :
    (f_attack hunterA preyD).attacker.strength
        = hunterA.strength + preyD.strength - preyD.f_defensive_damage ∧
    (f_attack hunterA preyD).defender.alive = false := by
  have h := (attack_conservation hunterA preyD (by decide) (by decide)).1
    (by decide) (by decide)
  exact ⟨h.1, h.2 (by decide)⟩

/-- Claim C4 (amended): f_cap_strength clamps strength to MAX_STRENGTH
from above and never touches the alive flag; the lower bound 0 is
guaranteed only when the strength entering the cap is already
nonnegative — the cap performs no clamping from below. -/
theorem cap_strength_bounds (c : Creature) :
    (f_cap_strength c).strength ≤ MAX_STRENGTH ∧
    (0 ≤ c.strength → 0 ≤ (f_cap_strength c).strength) ∧
    (f_cap_strength c).alive = c.alive := by
  unfold f_cap_strength MAX_STRENGTH
  exact ⟨min_le_right _ _, fun h => le_min h (by norm_num), rfl⟩

/-- Claim C4 counterexample: a living strength-50 competitor consumes a
poison drop (strength 1, defensive damage 400) and ends the fight alive
at strength −349; applying the per-turn cap leaves it alive with strength
still below 0, violating 0 ≤ strength after the cap. -/
theorem cap_strength_negative_cex :
    (f_cap_strength (f_attack attacker50 drop100).attacker).alive = true ∧
    (f_cap_strength (f_attack attacker50 drop100).attacker).strength < 0 := by decide

/-- Claim C4 witness: the cap applied to a creature with nonnegative
strength yields a strength in [0, MAX_STRENGTH]. -/
theorem cap_strength_bounds_witness :
    (f_cap_strength richHost).strength ≤ MAX_STRENGTH ∧
    0 ≤ (f_cap_strength richHost).strength := by
  have h := cap_strength_bounds richHost
  exact ⟨h.1, h.2.1 (by decide)⟩

/-- Claim C10 (amended): for every creature except Soil (which overrides
f_feed to a no-op), f_feed on a living creature adds the amount — however
negative — to strength and changes nothing else, in particular never the
alive flag; f_feed on a dead creature changes nothing. -/
theorem feed_adds_strength (c : Creature) (e : Int) (hk : c.kind ≠ Kind.soil) :
    (c.alive = true → f_feed c e = { c with strength := c.strength + e }) ∧
    (c.alive = false → f_feed c e = c) :=
  ⟨fun ha => f_feed_alive_eq c e hk ha, fun ha => f_feed_dead_eq c e ha⟩

/-- Claim C10 counterexample: Soil has its alive flag set, yet f_feed on
it changes nothing — its strength does not become strength + 5. -/
theorem feed_soil_noop_cex :
    (mkSoil 0).alive = true ∧
    f_feed (mkSoil 0) 5 = mkSoil 0 ∧
    (f_feed (mkSoil 0) 5).strength ≠ (mkSoil 0).strength + 5 := by decide

/-- Claim C10 witness: feeding a living competitor −500 drives its
strength negative with no death check, and feeding a dead creature is a
no-op. -/
theorem feed_adds_strength_witness :
    f_feed richHost (-500) = { richHost with strength := richHost.strength + -500 } ∧
    f_feed (f_die richHost) 5 = f_die richHost := by
  have h1 := (feed_adds_strength richHost (-500) (by decide)).1 (by decide)
  have h2 := (feed_adds_strength (f_die richHost) 5 (by decide)).2 (by decide)
  exact ⟨h1, h2⟩

/-- Claim C1: each of the four guarded organ operations
(Cilia.move_in_direction, Sensor.sense, Propagator.give_birth,
Cloaking.cloak) charges the organ's use cost to the host first — the
host's post-call state is exactly f_expend of its pre-charge state, paid
whether or not the action proceeds, possibly killing the host — and only
then tests the host's alive flag; when the charge kills the host the
action is aborted with no world effect, a sensor returning its
capability-specific default value. -/
theorem committing_use_cost_check :
    (∀ (o : Organ) (h : Creature) (b : Direction), o.kind = OrganKind.cilia →
      (move_in_direction o h b).2.1 = f_expend h 20 ∧
      ((f_expend h 20).alive = false →
        (move_in_direction o h b).2.2 = none ∧ (move_in_direction o h b).1 = o)) ∧
    (∀ (o : Organ) (h target : Creature),
      (o.kind = OrganKind.energySensor ∨ o.kind = OrganKind.creatureTypeSensor ∨
       o.kind = OrganKind.lifeSensor ∨ o.kind = OrganKind.poisonSensor) →
      (sense o h target).1 = f_expend h (use_cost o.kind) ∧
      ((f_expend h (use_cost o.kind)).alive = false →
        (sense o h target).2.1 = default_value o.kind ∧ (sense o h target).2.2 = false) ∧
      ((f_expend h (use_cost o.kind)).alive = true →
        (sense o h target).2.1 = sensor_value o.kind target ∧
        (sense o h target).2.2 = true)) ∧
    (∀ (o : Organ) (h : Creature) (e : Int) (b : Direction), o.kind = OrganKind.propagator →
      (give_birth o h e b).1 = f_expend (f_expend h e) 100 ∧
      ((f_expend (f_expend h e) 100).alive = false → (give_birth o h e b).2 = none) ∧
      ((f_expend (f_expend h e) 100).alive = true →
        (give_birth o h e b).2 = some (OrganEffect.dropChild e b))) ∧
    (∀ (o : Organ) (h : Creature), o.kind = OrganKind.cloaking →
      ((f_expend h 100).alive = false → cloak o h = f_expend h 100) ∧
      ((f_expend h 100).alive = true → cloak o h = f_cloak (f_expend h 100))) := by
  refine ⟨?_, ?_, ?_, ?_⟩
  · intro o h b hk
    simp only [move_in_direction, f_host_would_be_alive_after_use, hk, use_cost]
    by_cases halive : (f_expend h 20).alive = true <;>
      by_cases hu : (o.usesThisTurn == 0) = true <;> simp [halive, hu]
  · intro o h target _
    simp only [sense, f_host_would_be_alive_after_use]
    by_cases halive : (f_expend h (use_cost o.kind)).alive = true <;> simp [halive]
  · intro o h e b hk
    simp only [give_birth, f_host_would_be_alive_after_use, hk, use_cost]
    by_cases halive : (f_expend (f_expend h e) 100).alive = true <;> simp [halive]
  · intro o h hk
    simp only [cloak, f_host_would_be_alive_after_use, hk, use_cost]
    by_cases halive : (f_expend h 100).alive = true <;> simp [halive]

/-- Claim C1 witness: a strength-1 competitor is killed by each use-cost
charge; every action aborts with no world effect, the sensor returning
its default. -/
theorem committing_use_cost_check_witness :
    ((move_in_direction ciliaNew frailHost Direction.north).2.2 = none ∧
      (move_in_direction ciliaNew frailHost Direction.north).1 = ciliaNew) ∧
    ((sense energySensO frailHost (mkSoil 10)).2.1 = default_value OrganKind.energySensor ∧
      (sense energySensO frailHost (mkSoil 10)).2.2 = false) ∧
    (give_birth propO frailHost 0 Direction.north).2 = none ∧
    cloak cloakO frailHost = f_expend frailHost 100 := by
  refine ⟨?_, ?_, ?_, ?_⟩
  · exact (committing_use_cost_check.1 ciliaNew frailHost Direction.north rfl).2 (by decide)
  · exact ((committing_use_cost_check.2.1 energySensO frailHost (mkSoil 10)
      (Or.inl rfl)).2.1) (by decide)
  · exact ((committing_use_cost_check.2.2.1 propO frailHost 0 Direction.north rfl).2.1)
      (by decide)
  · exact ((committing_use_cost_check.2.2.2 cloakO frailHost rfl).1) (by decide)

/-- Claim C9: Cilia.move_in_direction always commits the use-cost charge
of 20, even when the one-use-per-turn cap blocks the movement: with the
organ already used this turn, the organ state is unchanged, no world
effect is produced (the grid is untouched, no attack is launched), yet
the host still ends in the state f_expend gives it — its strength reduced
by the full 20 whenever it can afford the charge, and possibly killed
otherwise. -/
theorem cilia_use_cap_still_charges (o : Organ) (h : Creature) (b : Direction)
    (hk : o.kind = OrganKind.cilia) (hu : o.usesThisTurn ≠ 0) :
    (move_in_direction o h b).1 = o ∧
    (move_in_direction o h b).2.1 = f_expend h 20 ∧
    (move_in_direction o h b).2.2 = none ∧
    (∀ (w : World) (child : Creature),
      apply_organ_effect w (move_in_direction o h b).2.1 child
        (move_in_direction o h b).2.2 = Except.ok w) ∧
    (¬(h.kind = Kind.soil ∨ h.kind = Kind.poisonDrop) → 20 ≤ h.strength →
      (move_in_direction o h b).2.1.strength = h.strength - 20) := by
  have hcond : (o.usesThisTurn == 0) = false := by simp [hu]
  have hred : move_in_direction o h b = (o, f_expend h 20, none) := by
    simp [move_in_direction, f_host_would_be_alive_after_use, hk, use_cost, hcond]
  rw [hred]
  refine ⟨rfl, rfl, rfl, fun w child => rfl, fun hknd hs => ?_⟩
  rw [f_expend_eq_sub h 20 hknd hs]

/-- Claim C9 witness: a used-up Cilia on a strength-100 competitor moves
nothing, leaves any world unchanged, and still costs 20 strength. -/
theorem cilia_use_cap_still_charges_witness :
    (move_in_direction ciliaUsed richHost Direction.north).2.2 = none ∧
    apply_organ_effect world1 (move_in_direction ciliaUsed richHost Direction.north).2.1
      (mkSoil 10) (move_in_direction ciliaUsed richHost Direction.north).2.2
        = Except.ok world1 ∧
    (move_in_direction ciliaUsed richHost Direction.north).2.1.strength
        = richHost.strength - 20 := by
  have h := cilia_use_cap_still_charges ciliaUsed richHost Direction.north rfl (by decide)
  exact ⟨h.2.2.1, h.2.2.2.1 world1 (mkSoil 10), h.2.2.2.2 (by decide) (by decide)⟩

/-- Claim C5 (amended): with the reservoir at volume 900 and capacity
1000, add_poison(500) from a living host with strength at least 500 clips
the volume to exactly 1000, but the host is charged the full clipped
request min(strength, 500) = 500 — charged before the reservoir clip —
not merely the 100 units actually absorbed. -/
theorem add_poison_charges_full_request (g : Organ) (h : Creature)
    (hk : ¬(h.kind = Kind.soil ∨ h.kind = Kind.poisonDrop))
    (hg : g.reservoirVolume = 900) (hs : 500 ≤ h.strength) :
    (add_poison g h 500).1.reservoirVolume = 1000 ∧
    (add_poison g h 500).2 = { h with strength := h.strength - 500 } := by
  have hmin : min h.strength 500 = 500 := min_eq_right hs
  simp only [add_poison, RESERVOIR_CAPACITY, hmin, hg]
  rw [if_neg (by norm_num), f_expend_eq_sub h 500 hk hs]
  norm_num

/-- Claim C5 counterexample: the host of the C5 scenario enters with
strength exactly 500; after add_poison(500) the reservoir stands at 1000
but the host's strength is 0 — it was charged 500, not the 100 the claim
allows (which would leave 400). -/
theorem add_poison_overcharge_cex :
    (add_poison gland900 glandHost 500).1.reservoirVolume = 1000 ∧
    (add_poison gland900 glandHost 500).2.strength = 0 ∧
    (add_poison gland900 glandHost 500).2.strength ≠ glandHost.strength - 100 := by decide

/-- Claim C5 witness: the amended statement evaluated on the concrete C5
scenario host. -/
theorem add_poison_charges_full_request_witness :
    (add_poison gland900 glandHost 500).1.reservoirVolume = 1000 ∧
    (add_poison gland900 glandHost 500).2 = { glandHost with strength := 0 } :=
  add_poison_charges_full_request gland900 glandHost (by decide) (by decide) (by decide)

/-- Claim C6 (amended): a creature that cannot afford an organ's creation
cost is not silently skipped over: f_add_organ charges the cost first,
killing the creature (strength zeroed, alive cleared), and — since the
affordability of the charge is never checked — still attaches the organ
whenever a slot is free, so the organ count increases by one.  No error
surfaces. -/
theorem add_organ_kills_and_attaches (c : Creature) (o : Organ)
    (hk : ¬(c.kind = Kind.soil ∨ c.kind = Kind.poisonDrop))
    (hs : c.strength < creation_cost o.kind) (hroom : c.organs.length < MAX_ORGANS) :
    (f_add_organ c o).alive = false ∧ (f_add_organ c o).strength = 0 ∧
    (f_add_organ c o).organs = c.organs ++ [o] := by
  simp only [f_add_organ]
  rw [f_expend_kills c _ hk hs]
  simp [hroom]

/-- Claim C6 counterexample: the living strength-40 competitor of the C6
scenario creating a Cilia (creation cost 100) does not keep its organ
count and strength unchanged — it ends dead at strength 0 with the organ
attached, organ count 1. -/
theorem add_organ_unaffordable_cex :
    weakCreator.alive = true ∧ weakCreator.strength = 40 ∧
    creation_cost ciliaNew.kind = 100 ∧
    (f_add_organ weakCreator ciliaNew).organs.length = 1 ∧
    (f_add_organ weakCreator ciliaNew).strength = 0 ∧
    (f_add_organ weakCreator ciliaNew).alive = false := by decide

/-- Claim C6 witness: the amended statement evaluated on the concrete C6
scenario creature. -/
theorem add_organ_kills_and_attaches_witness :
    (f_add_organ weakCreator ciliaNew).alive = false ∧
    (f_add_organ weakCreator ciliaNew).strength = 0 ∧
    (f_add_organ weakCreator ciliaNew).organs = weakCreator.organs ++ [ciliaNew] :=
  add_organ_kills_and_attaches weakCreator ciliaNew (by decide) (by decide) (by decide)

/-- Claim C7: Simulation.check_win sets game_over exactly when exactly
one competitor species has a nonzero live-instance count; with zero or
with two or more species having nonzero counts — total extinction
included — the flag is left as it was, so the state is not made
terminal. -/
theorem check_win_rule (counts : List Int) (g : Bool) :
    (live_competitors counts = 1 → check_win counts g = true) ∧
    (live_competitors counts ≠ 1 → check_win counts g = g) ∧
    (check_win counts false = true ↔ live_competitors counts = 1) := by
  unfold check_win
  refine ⟨fun h => by simp [h], fun h => by simp [h], ?_⟩
  by_cases h : live_competitors counts = 1 <;> simp [h]

/-- Claim C7 witness: one species alive out of three sets the flag; all
three extinct leaves it unset. -/
theorem check_win_rule_witness :
    check_win [3, 0, 0] false = true ∧ check_win [0, 0, 0] false = false := by
  refine ⟨(check_win_rule [3, 0, 0] false).1 (by decide),
    (check_win_rule [0, 0, 0] false).2.1 (by decide)⟩

/-- Claim C8: for a creature whose last recorded index is a valid cell
that no longer holds it, World.move and World.drop_beside swallow the
locate failure (a ValueError) and return the world unchanged — no
exception propagates and the grid is untouched. -/
theorem stale_creature_world_noop (w : World) (c d : Creature) (b : Direction) (i : Nat)
    (hloc : c.location = some i) (hi : i < w.locations.length)
    (hocc : (w.locations.get ⟨i, hi⟩).id ≠ c.id) :
    w.move c b = Except.ok w ∧ w.drop_beside c d b = Except.ok w := by
  have hval : w.location_of c = Except.error LocateError.valueError := by
    simp only [World.location_of, hloc]
    rw [List.get?_eq_get hi]
    simp only [List.get_eq_getElem] at hocc
    simp [hocc]
  constructor
  · unfold World.move
    rw [hval]
  · unfold World.drop_beside
    rw [hval]

/-- Claim C8 witness: in the 1 × 1 soil world, a creature whose recorded
cell 0 now holds the soil occupant is silently ignored by both move and
drop_beside. -/
theorem stale_creature_world_noop_witness :
    world1.move ghost Direction.north = Except.ok world1 ∧
    world1.drop_beside ghost (mkSoil 10) Direction.north = Except.ok world1 :=
  stale_creature_world_noop world1 ghost (mkSoil 10) Direction.north 0
    (by decide) (by decide) (by decide)

end BugBattle
